import Mathlib

/-!
# HellSpawner `dccwidget`: the DCC viewer widget

A shallow embedding of `hswidget/dccwidget/widget.go`:

* `Build`, lines 65-92: the choice of the image widget shown by the viewer;
* the `OnChange` handler of the "Tick time" input, lines 138-140;
* the `OnClick` handler of the "Export GIF" button, lines 143-148;
* `exportGif`, lines 154-206.

Go machine integers are integers of Lean reduced explicitly to their width
(`int32`, `uint32`, and `int`/`int64`/`time.Duration` as 64-bit words).  Run-time
panics and `log.Fatalf` are explicit outcomes.  Everything the widget obtains
from outside (the save dialog, the GIF codec, the file system) is a field of
`World`, so that every definition can be evaluated on concrete inputs.
-/

namespace DccWidget

/-! ## Go machine integers -/

/-- Value of the integer `x` once stored in a signed two's complement word of
`w` bits: what a Go conversion to, or an arithmetic operation in, a signed
type of that width yields. -/
def wrapSigned (w : Nat) (x : Int) : Int :=
  (x + 2 ^ (w - 1)) % 2 ^ w - 2 ^ (w - 1)

/-- Go `int32(x)`, and the result of `int32` arithmetic whose exact value is `x`. -/
def toInt32 (x : Int) : Int := wrapSigned 32 x

/-- Go `int(x)` / `int64(x)` / `time.Duration(x)` on a 64-bit platform. -/
def toInt64 (x : Int) : Int := wrapSigned 64 x

/-- Go `uint32(x)`, and the result of `uint32` arithmetic whose exact value is `x`. -/
def toUint32 (x : Int) : Int := x % 2 ^ 32

/-- The values of Go's `int32`. -/
def inInt32 (x : Int) : Prop := -2 ^ 31 ≤ x ∧ x < 2 ^ 31

instance (x : Int) : Decidable (inInt32 x) := by
  unfold inInt32; infer_instance

/-- Go `xs[i]`: `none` stands for the run-time panic "index out of range". -/
def goIndex {α : Type} (xs : List α) (i : Int) : Option α :=
  if 0 ≤ i then xs[i.toNat]? else none

/-- Go `xs[lo:hi]` on a slice whose capacity is its length: `none` stands for
the run-time panic "slice bounds out of range". -/
def goSlice {α : Type} (xs : List α) (lo hi : Int) : Option (List α) :=
  if 0 ≤ lo ∧ lo ≤ hi ∧ hi ≤ (xs.length : Int) then
    some ((xs.drop lo.toNat).take (hi - lo).toNat)
  else none

/-! ## Errors and outcomes -/

/-- A Go `error`: either an error of a library, or one made by
`fmt.Errorf("<context>%w", inner)`. -/
inductive GoError where
  | leaf (msg : String)
  | wrapped (context : String) (inner : GoError)
deriving DecidableEq, Repr

/-- Go `err.Error()`. -/
def GoError.Error : GoError → String
  | .leaf msg => msg
  | .wrapped context inner => context ++ inner.Error

/-- Run-time panics met in this file: those of the Go runtime on an index or a
slice expression, and the `panic("non-positive interval for Ticker.Reset")` of
`(*time.Ticker).Reset(d)` when `d <= 0`. -/
inductive Panic where
  | indexOutOfRange (container : String) (index : Int) (length : Nat)
  | sliceBoundsOutOfRange (container : String) (low high : Int) (length : Nat)
  | nonPositiveInterval (d : Int)
deriving DecidableEq, Repr

/-- How a call ends: it returns, the runtime panics, or `log.Fatalf` prints its
message and exits the process with status 1. -/
inductive Outcome (α : Type) where
  | returned (value : α)
  | panicked (p : Panic)
  | fatal (msg : String)
deriving DecidableEq, Repr

/-! ## Data of the collaborating libraries -/

/-- A decoded frame, `*image.RGBA`. -/
structure Image where
  handle : Nat
deriving DecidableEq, Repr

/-- The bytes `gif.Encode` writes to the buffer `g`. -/
structure GifBytes where
  handle : Nat
deriving DecidableEq, Repr

/-- A frame as `gif.Decode` returns it, `*image.Paletted`. -/
structure Paletted where
  handle : Nat
deriving DecidableEq, Repr

/-- A texture handle, the target of a non-nil `*giu.Texture`. -/
structure Texture where
  handle : Nat
deriving DecidableEq, Repr

/-- An open file, `*os.File`. -/
structure File where
  handle : Nat
deriving DecidableEq, Repr

/-- The fields of `gif.GIF` that `exportGif` fills; `LoopCount` keeps its zero
value (loop forever). -/
structure GIF where
  Image : List Paletted := []
  Delay : List Int := []
  LoopCount : Int := 0
deriving DecidableEq, Repr

/-- The fields of `d2geom.Rectangle` that `Build` reads. -/
structure Rectangle where
  Width : Int
  Height : Int
deriving DecidableEq, Repr

/-- A `d2dcc.DCCDirection`: `Build` reads the number of its frames and its box. -/
structure DCCDirection where
  Frames : List Unit
  Box : Rectangle
deriving DecidableEq, Repr

/-- The fields of `d2dcc.DCC` that the widget reads (Go `int`s and a slice). -/
structure DCC where
  NumberOfDirections : Int
  FramesPerDirection : Int
  Directions : List DCCDirection
deriving DecidableEq, Repr

/-! ## The widget state -/

/-- Modelled from the spec: the declaration of `widgetState` is not in
`widget.go`; this is its `controls` part as `widget.go` uses it, three `int32`
bound to `imgui.SliderInt` ("direction: index into AnimationSet, frame: index
into current Direction's Frames, scale"). -/
structure controls where
  direction : Int
  frame : Int
  scale : Int
deriving DecidableEq, Repr

/-- Modelled from the spec: the declaration of `widgetState` is not in
`widget.go`; these are the fields `widget.go` reads or binds to controls
(the spec's `PlaybackState`): `tickTime` is an `int32` (bound to
`giu.InputInt`), `playMode` an `animationPlayMode`, `images` the decoded frames
of all directions, `textures` a slice of `*giu.Texture` that may be nil and
whose entries may be nil, `ticker` the period in nanoseconds last given to the
`*time.Ticker`. -/
structure widgetState where
  controls : controls
  isPlaying : Bool
  «repeat» : Bool
  tickTime : Int
  playMode : Int
  images : List Image
  textures : Option (List (Option Texture))
  ticker : Int
deriving DecidableEq, Repr

/-! ## The outside world of `exportGif` -/

/-- What the libraries called by `exportGif` answer. -/
structure World where
  /-- Result of `dialog.File().Title("Save").Filter("gif images", "gif").Save()`. -/
  Save : Except GoError String
  /-- Result of `gif.Encode(g, img, nil)` into a fresh buffer `g`. -/
  Encode : Image → Except GoError GifBytes
  /-- Result of `gif.Decode(g)`. -/
  Decode : GifBytes → Except GoError Paletted
  /-- The function `filepath.Clean`. -/
  Clean : String → String
  /-- Result of `os.OpenFile(path, os.O_WRONLY|os.O_CREATE, 0o600)`. -/
  OpenFile : String → Except GoError File
  /-- Result of `gif.EncodeAll(file, outGif)`; `none` is the nil error. -/
  EncodeAll : File → GIF → Option GoError
  /-- Result of `file.Close()`; `none` is the nil error. -/
  Close : File → Option GoError

/-- What a run does to the world outside of the widget state. -/
inductive Event where
  | openFile (path : String)
  | encodeAll (file : File) (outGif : GIF)
  | close (file : File)
  | errorMessage (msg : String)
deriving DecidableEq, Repr

/-- The end of a call that was given the state by pointer: how it ended, the
state it leaves, and what it did to the outside, oldest event first. -/
structure Run (α : Type) where
  outcome : Outcome α
  state : widgetState
  events : List Event

/-! ## `Build`, lines 65-92 -/

/-- The `giu.ImageWidget` that `Build` puts in its layout: the texture (`none`
is a nil texture) and the two `uint32` values (or the constants 32, 32) that
`Size` receives converted to `float32`. -/
structure ImageWidget where
  texture : Option Texture
  width : Int
  height : Int
deriving DecidableEq, Repr

/-- The constants `imageW, imageH`. -/
def imageW : Int := 32

/-- The constants `imageW, imageH`. -/
def imageH : Int := 32

/-- Lines 68 and 74-76: `imageScale := uint32(viewerState.controls.scale)`,
then `if imageScale < 1 { imageScale = 1 }`. -/
def imageScale (scale : Int) : Int :=
  let imageScale := toUint32 scale
  if imageScale < 1 then 1 else imageScale

/-- Lines 69-72: `dirIdx*len(p.dcc.Directions[dirIdx].Frames) + int(frameIdx)`
in Go `int`. -/
def textureIdx (dirIdx : Int) (dir : DCCDirection) (frameIdx : Int) : Int :=
  toInt64 (toInt64 (dirIdx * (dir.Frames.length : Int)) + frameIdx)

/-- Lines 66-92 of `Build`: the image widget chosen for the current state. -/
def Build (dcc : DCC) (viewerState : widgetState) : Outcome ImageWidget :=
  let dirIdx := viewerState.controls.direction
  let frameIdx := viewerState.controls.frame
  match goIndex dcc.Directions dirIdx with
  | none => .panicked (.indexOutOfRange "p.dcc.Directions" dirIdx dcc.Directions.length)
  | some dir =>
    let tIdx := textureIdx dirIdx dir frameIdx
    let scale := imageScale viewerState.controls.scale
    match viewerState.textures with
    | none => .returned { texture := none, width := imageW, height := imageH }
    | some textures =>
      if (textures.length : Int) ≤ frameIdx then
        .returned { texture := none, width := imageW, height := imageH }
      else
        match goIndex textures frameIdx with
        | none => .panicked (.indexOutOfRange "viewerState.textures" frameIdx textures.length)
        | some none => .returned { texture := none, width := imageW, height := imageH }
        | some (some _) =>
          let bw := dir.Box.Width
          let bh := dir.Box.Height
          let w := toUint32 (toUint32 bw * scale)
          let h := toUint32 (toUint32 bh * scale)
          match goIndex textures tIdx with
          | none => .panicked (.indexOutOfRange "viewerState.textures" tIdx textures.length)
          | some texture => .returned { texture := texture, width := w, height := h }

/-! ## The "Tick time" input, lines 138-140 -/

/-- Go `time.Second`, in nanoseconds. -/
def timeSecond : Int := 1000000000

/-- The argument of `state.ticker.Reset` on lines 139:
`time.Second * time.Duration(state.tickTime) / miliseconds`, in `time.Duration`
(an `int64` of nanoseconds).  The untyped constant `miliseconds` is declared
outside of `widget.go` and is a parameter here. -/
def tickerResetDuration (miliseconds : Int) (tickTime : Int) : Int :=
  toInt64 ((toInt64 (timeSecond * toInt64 tickTime)).tdiv miliseconds)

/-- The `OnChange` handler of the "Tick time" input, lines 138-140, run once
`giu.InputInt` has stored the entered value in `state.tickTime`: the call
`state.ticker.Reset(d)`.  `Reset` panics when `d <= 0` and otherwise gives the
ticker the period `d`. -/
def tickTimeOnChange (miliseconds : Int) (state : widgetState) : Outcome widgetState :=
  let d := tickerResetDuration miliseconds state.tickTime
  if d ≤ 0 then .panicked (.nonPositiveInterval d)
  else .returned { state with ticker := d }

/-! ## `exportGif`, lines 154-206 -/

/-- Line 184: `int(state.tickTime/miliseconds)`, an `int32` quotient widened to `int`. -/
def frameDelay (miliseconds : Int) (tickTime : Int) : Int :=
  toInt64 (toInt32 (tickTime.tdiv miliseconds))

/-- Lines 167-185: the loop over the frames of the chosen direction, started
with what `outGif` holds so far. -/
def exportFrames (world : World) (miliseconds : Int) (tickTime : Int) :
    List Image → GIF → Except GoError GIF
  | [], outGif => .ok outGif
  | img :: rest, outGif =>
    match world.Encode img with
    | .error err => .error (.wrapped "error encoding gif: " err)
    | .ok g =>
      match world.Decode g with
      | .error err => .error (.wrapped "error decoding gif image: " err)
      | .ok inGif =>
        exportFrames world miliseconds tickTime rest
          { outGif with
            Image := outGif.Image ++ [inGif]
            Delay := outGif.Delay ++ [frameDelay miliseconds tickTime] }

/-- The re-encoding of one frame, lines 171-181: `gif.Encode` into a fresh
buffer, then `gif.Decode` of that buffer. -/
def reencode (world : World) (img : Image) : Except GoError Paletted :=
  match world.Encode img with
  | .error err => .error (.wrapped "error encoding gif: " err)
  | .ok g =>
    match world.Decode g with
    | .error err => .error (.wrapped "error decoding gif image: " err)
    | .ok inGif => .ok inGif

/-- The function `exportGif`.  The pointer `state` is passed in and handed back. -/
def exportGif (world : World) (miliseconds : Int) (dcc : DCC) (state : widgetState) :
    Run (Option GoError) :=
  match world.Save with
  | .error err =>
    { outcome := .returned (some (.wrapped "error reading filepath: " err))
      state := state, events := [] }
  | .ok filePath =>
    let fpd := toInt32 dcc.FramesPerDirection
    let firstFrame := toInt32 (state.controls.direction * fpd)
    let lastFrame := toInt32 (firstFrame + fpd)
    match goSlice state.images firstFrame lastFrame with
    | none =>
      { outcome := .panicked
          (.sliceBoundsOutOfRange "state.images" firstFrame lastFrame state.images.length)
        state := state, events := [] }
    | some images =>
      match exportFrames world miliseconds state.tickTime images {} with
      | .error err => { outcome := .returned (some err), state := state, events := [] }
      | .ok outGif =>
        let path := world.Clean filePath
        match world.OpenFile path with
        | .error err =>
          { outcome := .returned (some (.wrapped "error creating a new file: " err))
            state := state, events := [.openFile path] }
        | .ok file =>
          let events := [Event.openFile path, Event.encodeAll file outGif, Event.close file]
          let saved := world.EncodeAll file outGif
          match world.Close file with
          | some err =>
            { outcome := .fatal ("Error closing file " ++ filePath ++ ": " ++ err.Error)
              state := state, events := events }
          | none =>
            match saved with
            | some err =>
              { outcome := .returned (some (.wrapped "error saving to output gif: " err))
                state := state, events := events }
            | none => { outcome := .returned none, state := state, events := events }

/-- The `OnClick` handler of the "Export GIF" button, lines 143-148. -/
def exportGifOnClick (world : World) (miliseconds : Int) (dcc : DCC) (state : widgetState) :
    Run Unit :=
  let run := exportGif world miliseconds dcc state
  match run.outcome with
  | .returned none => { outcome := .returned (), state := run.state, events := run.events }
  | .returned (some err) =>
    { outcome := .returned (), state := run.state
      events := run.events ++ [.errorMessage ("error while creating gif " ++ err.Error)] }
  | .panicked p => { outcome := .panicked p, state := run.state, events := run.events }
  | .fatal msg => { outcome := .fatal msg, state := run.state, events := run.events }

/-! ## Inputs on which the definitions are evaluated -/

/-- The error `dialog.ErrCancelled` that `Save` returns when the user cancels
or closes the dialog. -/
def ErrCancelled : GoError := .leaf "Cancelled"

/-- A world in which the user picks `out.gif` and every library call succeeds. -/
def sampleWorld : World where
  Save := .ok "out.gif"
  Encode := fun img => .ok { handle := img.handle }
  Decode := fun g => .ok { handle := g.handle }
  Clean := fun path => path
  OpenFile := fun _ => .ok { handle := 3 }
  EncodeAll := fun _ _ => none
  Close := fun _ => none

/-- The user cancels the save dialog. -/
def cancelWorld : World := { sampleWorld with Save := .error ErrCancelled }

/-- Closing the output file fails. -/
def closeFailsWorld : World :=
  { sampleWorld with Close := fun _ => some (.leaf "input/output error") }

/-- Writing the animation fails; the file closes. -/
def writeFailsWorld : World :=
  { sampleWorld with EncodeAll := fun _ _ => some (.leaf "no space left on device") }

/-- Writing the animation fails, and then closing the output file fails. -/
def writeAndCloseFailWorld : World :=
  { sampleWorld with
    EncodeAll := fun _ _ => some (.leaf "no space left on device")
    Close := fun _ => some (.leaf "input/output error") }

/-- A direction of `n` frames with a box of 10 by 20. -/
def sampleDirection (n : Nat) : DCCDirection :=
  { Frames := List.replicate n (), Box := { Width := 10, Height := 20 } }

/-- Two directions of three frames each. -/
def sampleDcc : DCC :=
  { NumberOfDirections := 2, FramesPerDirection := 3
    Directions := [sampleDirection 3, sampleDirection 3] }

/-- The second direction of `sampleDcc` is selected, tick time 300, all six
frames decoded, all six textures loaded. -/
def sampleState : widgetState :=
  { controls := { direction := 1, frame := 0, scale := 1 }
    isPlaying := false
    «repeat» := true
    tickTime := 300
    playMode := 0
    images := [⟨10⟩, ⟨11⟩, ⟨12⟩, ⟨13⟩, ⟨14⟩, ⟨15⟩]
    textures := some [some ⟨20⟩, some ⟨21⟩, some ⟨22⟩, some ⟨23⟩, some ⟨24⟩, some ⟨25⟩]
    ticker := 300000000 }

/-- As `sampleState`, when only the texture of the very first frame has been
loaded so far. -/
def loadingState : widgetState :=
  { sampleState with textures := some [some ⟨20⟩, none, none, none, none, none] }

/-- As `sampleState`, with a texture slice that holds one texture only. -/
def shortTexturesState : widgetState :=
  { sampleState with textures := some [some ⟨20⟩] }

/-- As `sampleState`, with a stored scale of -1. -/
def negativeScaleState : widgetState :=
  { sampleState with controls := { direction := 1, frame := 0, scale := -1 } }

/-- As `sampleState`, after the user entered 0 in the "Tick time" input. -/
def zeroTickState : widgetState :=
  { sampleState with tickTime := 0 }

/-- As `sampleState`, after the user entered -5 in the "Tick time" input. -/
def negativeTickState : widgetState :=
  { sampleState with tickTime := -5 }

/-- As `sampleState`, with the stored direction 2, one past the last direction. -/
def badDirectionState : widgetState :=
  { sampleState with controls := { direction := 2, frame := 0, scale := 1 } }

/-- One direction of 2^32 + 1 frames, as the `int` field `FramesPerDirection`
can hold on a 64-bit platform. -/
def hugeDcc : DCC :=
  { NumberOfDirections := 1, FramesPerDirection := 4294967297
    Directions := [sampleDirection 4294967297] }

/-- The only direction of `hugeDcc` is selected and all of its frames are decoded. -/
def hugeState : widgetState :=
  { sampleState with
    controls := { direction := 0, frame := 0, scale := 1 }
    images := List.replicate 4294967297 ⟨10⟩ }

/-! ## Machine arithmetic -/

theorem toInt32_of_inInt32 {x : Int} (h : inInt32 x) : toInt32 x = x := by
  unfold inInt32 at h
  unfold toInt32 wrapSigned
  norm_num at h ⊢
  omega

theorem toInt64_of_range {x : Int} (h : -2 ^ 63 ≤ x ∧ x < 2 ^ 63) : toInt64 x = x := by
  unfold toInt64 wrapSigned
  norm_num at h ⊢
  omega

theorem tickerResetDuration_thousand {t : Int} (h : inInt32 t) :
    tickerResetDuration 1000 t = t * 1000000 := by
  unfold inInt32 at h
  norm_num at h
  have h1 : toInt64 t = t := toInt64_of_range (by norm_num; omega)
  have h2 : toInt64 (timeSecond * t) = timeSecond * t :=
    toInt64_of_range (by unfold timeSecond; norm_num; omega)
  have h3 : (timeSecond * t).tdiv 1000 = t * 1000000 := by
    have : timeSecond * t = 1000 * (t * 1000000) := by unfold timeSecond; ring
    rw [this, Int.mul_tdiv_cancel_left _ (by decide)]
  unfold tickerResetDuration
  rw [h1, h2, h3]
  exact toInt64_of_range (by norm_num; omega)

theorem tdiv_second_bounds (m : Int) (hm : 0 < m) :
    (1000000000 : Int).tdiv m = 1000000000 / m ∧ 0 ≤ (1000000000 : Int) / m ∧
      (1000000000 : Int) / m ≤ 1000000000 := by
  refine ⟨Int.tdiv_eq_ediv (by decide) (le_of_lt hm), ?_, ?_⟩
  · exact Int.ediv_nonneg (by decide) (le_of_lt hm)
  · exact Int.ediv_le_self _ (by decide)

/-- The constant `miliseconds` is 1000 as soon as a tick time of 1 resets the
ticker to one millisecond. -/
theorem miliseconds_eq_thousand {m : Int} (h : tickerResetDuration m 1 = 1000000) :
    m = 1000 := by
  unfold tickerResetDuration at h
  have h1 : toInt64 1 = 1 := by decide
  have h2 : toInt64 (timeSecond * 1) = 1000000000 := by decide
  rw [h1, h2] at h
  rcases lt_trichotomy m 0 with hneg | hzero | hpos
  · exfalso
    obtain ⟨e1, e2, e3⟩ := tdiv_second_bounds (-m) (by omega)
    have e4 : (1000000000 : Int).tdiv m = -((1000000000 : Int) / (-m)) := by
      have : m = -(-m) := by omega
      rw [this, Int.tdiv_neg, e1]
      simp
    generalize (1000000000 : Int) / (-m) = q at e2 e3 e4
    rw [e4, toInt64_of_range (by norm_num; omega)] at h
    omega
  · exfalso
    subst hzero
    revert h
    decide
  · obtain ⟨e1, e2, e3⟩ := tdiv_second_bounds m hpos
    have e4 : toInt64 ((1000000000 : Int) / m) = 1000000000 / m := by
      generalize (1000000000 : Int) / m = q at e2 e3
      exact toInt64_of_range (by norm_num; omega)
    rw [e1, e4] at h
    have l1 := Int.ediv_mul_le (1000000000 : Int) (ne_of_gt hpos)
    have l2 := Int.lt_ediv_add_one_mul_self (1000000000 : Int) hpos
    rw [h] at l1 l2
    omega

/-! ## The loop of `exportGif` -/

theorem exportFrames_ok (world : World) (m t : Int) :
    ∀ (imgs : List Image) (acc out : GIF), exportFrames world m t imgs acc = .ok out →
      out.LoopCount = acc.LoopCount ∧
      out.Delay = acc.Delay ++ List.replicate imgs.length (frameDelay m t) ∧
      ∃ ps, out.Image = acc.Image ++ ps ∧
        List.Forall₂ (fun img p => reencode world img = .ok p) imgs ps := by
  intro imgs
  induction imgs with
  | nil =>
    intro acc out h
    simp only [exportFrames, Except.ok.injEq] at h
    subst h
    exact ⟨rfl, by simp, [], by simp, List.Forall₂.nil⟩
  | cons img rest ih =>
    intro acc out h
    unfold exportFrames at h
    cases hE : world.Encode img with
    | error err => simp [hE] at h
    | ok g =>
      simp only [hE] at h
      cases hD : world.Decode g with
      | error err => simp [hD] at h
      | ok inGif =>
        simp only [hD] at h
        obtain ⟨h1, h2, ps, h3, h4⟩ := ih _ _ h
        refine ⟨h1, ?_, inGif :: ps, ?_, ?_⟩
        · rw [h2]; simp [List.replicate_succ]
        · rw [h3]; simp
        · refine List.Forall₂.cons ?_ h4
          simp [reencode, hE, hD]

theorem exportFrames_error (world : World) (m t : Int) :
    ∀ (imgs : List Image) (acc : GIF) (e : GoError), exportFrames world m t imgs acc = .error e →
      ∃ img ∈ imgs, reencode world img = .error e := by
  intro imgs
  induction imgs with
  | nil => intro acc e h; simp [exportFrames] at h
  | cons img rest ih =>
    intro acc e h
    unfold exportFrames at h
    cases hE : world.Encode img with
    | error err =>
      simp only [hE] at h
      refine ⟨img, by simp, ?_⟩
      simp only [reencode, hE]
      rw [Except.error.inj h]
    | ok g =>
      simp only [hE] at h
      cases hD : world.Decode g with
      | error err =>
        simp only [hD] at h
        refine ⟨img, by simp, ?_⟩
        simp only [reencode, hE, hD]
        rw [Except.error.inj h]
      | ok inGif =>
        simp only [hD] at h
        obtain ⟨i, hi, hr⟩ := ih _ _ h
        exact ⟨i, by simp [hi], hr⟩

theorem exportFrames_total (world : World) (m t : Int) :
    ∀ (imgs : List Image) (acc : GIF), (∀ img ∈ imgs, ∃ p, reencode world img = .ok p) →
      ∃ out, exportFrames world m t imgs acc = .ok out := by
  intro imgs acc h
  cases hx : exportFrames world m t imgs acc with
  | ok out => exact ⟨out, rfl⟩
  | error e =>
    obtain ⟨img, hi, hr⟩ := exportFrames_error world m t imgs acc e hx
    obtain ⟨p, hp⟩ := h img hi
    rw [hp] at hr
    cases hr

/-! ## The frames of the selected direction -/

theorem selected_range {d n N : Int} (hd : 0 ≤ d ∧ d < N) (hn : 1 ≤ n)
    (hsz : N * n < 2 ^ 31) :
    toInt32 n = n ∧ toInt32 (d * n) = d * n ∧ toInt32 (d * n + n) = d * n + n ∧
      0 ≤ d * n ∧ d * n + n ≤ N * n := by
  have h1 : 0 ≤ d * n := mul_nonneg hd.1 (by omega)
  have h2 : d * n + n ≤ N * n := by nlinarith [hd.1, hd.2, hn]
  generalize d * n = a at h1 h2 ⊢
  generalize N * n = T at h2 hsz
  norm_num at hsz
  refine ⟨toInt32_of_inInt32 ?_, toInt32_of_inInt32 ?_, toInt32_of_inInt32 ?_, h1, h2⟩ <;>
    (unfold inInt32; norm_num; omega)

theorem goSlice_eq {α : Type} (xs : List α) {lo hi : Int} (h1 : 0 ≤ lo) (h2 : lo ≤ hi)
    (h3 : hi ≤ (xs.length : Int)) :
    goSlice xs lo hi = some ((xs.drop lo.toNat).take (hi - lo).toNat) := by
  unfold goSlice
  rw [if_pos ⟨h1, h2, h3⟩]

theorem goIndex_slice {α : Type} (xs : List α) {lo n : Int} (h1 : 0 ≤ lo) (k : Nat)
    (hk : (k : Int) < n) :
    ((xs.drop lo.toNat).take n.toNat)[k]? = goIndex xs (lo + k) := by
  unfold goIndex
  rw [if_pos (by omega)]
  have e : (lo + (k : Int)).toNat = lo.toNat + k := by omega
  rw [e, List.getElem?_take_of_lt (by omega), List.getElem?_drop]

/-- The run of `exportGif` once the dialog gave a path and the slice of the
frames is in bounds. -/
theorem exportGif_of_slice (world : World) (m : Int) (dcc : DCC) (state : widgetState)
    (filePath : String) (images : List Image) (hs : world.Save = .ok filePath)
    (hsl : goSlice state.images
      (toInt32 (state.controls.direction * toInt32 dcc.FramesPerDirection))
      (toInt32 (toInt32 (state.controls.direction * toInt32 dcc.FramesPerDirection) +
        toInt32 dcc.FramesPerDirection)) = some images) :
    exportGif world m dcc state =
      match exportFrames world m state.tickTime images {} with
      | .error err => { outcome := .returned (some err), state := state, events := [] }
      | .ok outGif =>
        match world.OpenFile (world.Clean filePath) with
        | .error err =>
          { outcome := .returned (some (.wrapped "error creating a new file: " err))
            state := state, events := [.openFile (world.Clean filePath)] }
        | .ok file =>
          match world.Close file with
          | some err =>
            { outcome := .fatal ("Error closing file " ++ filePath ++ ": " ++ err.Error)
              state := state
              events := [.openFile (world.Clean filePath), .encodeAll file outGif, .close file] }
          | none =>
            match world.EncodeAll file outGif with
            | some err =>
              { outcome := .returned (some (.wrapped "error saving to output gif: " err))
                state := state
                events := [.openFile (world.Clean filePath), .encodeAll file outGif, .close file] }
            | none =>
              { outcome := .returned none, state := state
                events := [.openFile (world.Clean filePath), .encodeAll file outGif, .close file] } := by
  unfold exportGif
  simp only [hs, hsl]

theorem exportGif_frames_of_success (world : World) (m : Int) (dcc : DCC) (state : widgetState)
    (hd : 0 ≤ state.controls.direction ∧ state.controls.direction < dcc.NumberOfDirections)
    (hn : 1 ≤ dcc.FramesPerDirection)
    (himg : (state.images.length : Int) = dcc.NumberOfDirections * dcc.FramesPerDirection)
    (hsz : dcc.NumberOfDirections * dcc.FramesPerDirection < 2 ^ 31)
    (hok : (exportGif world m dcc state).outcome = .returned none) :
    ∃ path file outGif,
      (exportGif world m dcc state).events =
        [.openFile path, .encodeAll file outGif, .close file] ∧
      (outGif.Image.length : Int) = dcc.FramesPerDirection ∧
      (outGif.Delay.length : Int) = dcc.FramesPerDirection ∧
      ∀ k : Nat, (k : Int) < dcc.FramesPerDirection →
        ∃ img p,
          goIndex state.images (state.controls.direction * dcc.FramesPerDirection + k) =
            some img ∧
          reencode world img = .ok p ∧ outGif.Image[k]? = some p := by
  obtain ⟨r1, r2, r3, r4, r5⟩ := selected_range hd hn hsz
  generalize hdn : state.controls.direction * dcc.FramesPerDirection = a at *
  cases hs : world.Save with
  | error err =>
    unfold exportGif at hok
    simp [hs] at hok
  | ok filePath =>
    have hsl := goSlice_eq state.images r4 (show a ≤ a + dcc.FramesPerDirection by omega)
      (by rw [himg]; exact r5)
    have e1 : a + dcc.FramesPerDirection - a = dcc.FramesPerDirection := by omega
    rw [e1] at hsl
    have hrun := exportGif_of_slice world m dcc state filePath _ hs
      (by rw [r1, hdn, r2, r3]; exact hsl)
    rw [hrun] at hok ⊢
    cases hf : exportFrames world m state.tickTime
        ((state.images.drop a.toNat).take dcc.FramesPerDirection.toNat) {} with
    | error err => simp [hf] at hok
    | ok outGif =>
      simp only [hf] at hok ⊢
      cases ho : world.OpenFile (world.Clean filePath) with
      | error err => simp [ho] at hok
      | ok file =>
        simp only [ho] at hok ⊢
        cases hc : world.Close file with
        | some err => simp [hc] at hok
        | none =>
          simp only [hc] at hok ⊢
          cases hw : world.EncodeAll file outGif with
          | some err => simp [hw] at hok
          | none =>
            simp only [hw]
            obtain ⟨-, hdelay, ps, himage, hall⟩ := exportFrames_ok world m _ _ _ _ hf
            have hlen : ((state.images.drop a.toNat).take dcc.FramesPerDirection.toNat).length
                = dcc.FramesPerDirection.toNat := by
              rw [List.length_take, List.length_drop]
              omega
            have hps : ps.length = dcc.FramesPerDirection.toNat := by
              rw [← hall.length_eq, hlen]
            have himage2 : outGif.Image = ps := by rw [himage]; rfl
            refine ⟨world.Clean filePath, file, outGif, rfl, ?_, ?_, ?_⟩
            · rw [himage2, hps]; omega
            · rw [hdelay]
              simp only [List.length_append, List.length_replicate, hlen]
              show ((0 + dcc.FramesPerDirection.toNat : Nat) : Int) = _
              omega
            · intro k hk
              have hk1 : k < ((state.images.drop a.toNat).take
                  dcc.FramesPerDirection.toNat).length := by rw [hlen]; omega
              have hk2 : k < ps.length := by rw [hps]; omega
              have hR := hall.get hk1 hk2
              refine ⟨_, _, ?_, hR, ?_⟩
              · rw [← goIndex_slice state.images r4 k hk]
                simp [List.getElem?_eq_getElem hk1]
              · rw [himage2]
                simp [List.getElem?_eq_getElem hk2]


theorem exportGif_success_of_benign (world : World) (m : Int) (dcc : DCC) (state : widgetState)
    (hd : 0 ≤ state.controls.direction ∧ state.controls.direction < dcc.NumberOfDirections)
    (hn : 1 ≤ dcc.FramesPerDirection)
    (himg : (state.images.length : Int) = dcc.NumberOfDirections * dcc.FramesPerDirection)
    (hsz : dcc.NumberOfDirections * dcc.FramesPerDirection < 2 ^ 31)
    (hsave : ∃ path, world.Save = .ok path)
    (hframes : ∀ img ∈ state.images, ∃ p, reencode world img = .ok p)
    (hopen : ∀ path, ∃ file, world.OpenFile path = .ok file)
    (hwrite : ∀ file outGif, world.EncodeAll file outGif = none)
    (hclose : ∀ file, world.Close file = none) :
    (exportGif world m dcc state).outcome = .returned none := by
  obtain ⟨r1, r2, r3, r4, r5⟩ := selected_range hd hn hsz
  generalize hdn : state.controls.direction * dcc.FramesPerDirection = a at *
  obtain ⟨filePath, hs⟩ := hsave
  have hsl := goSlice_eq state.images r4 (show a ≤ a + dcc.FramesPerDirection by omega)
    (by rw [himg]; exact r5)
  have hrun := exportGif_of_slice world m dcc state filePath _ hs
    (by rw [r1, hdn, r2, r3]; exact hsl)
  obtain ⟨outGif, hf⟩ := exportFrames_total world m state.tickTime
    ((state.images.drop a.toNat).take (a + dcc.FramesPerDirection - a).toNat) {}
    (fun img hi => hframes img (List.mem_of_mem_drop (List.mem_of_mem_take hi)))
  obtain ⟨file, ho⟩ := hopen (world.Clean filePath)
  rw [hrun]
  simp only [hf, ho, hclose file, hwrite file outGif]


/-- C1, as amended: when the direction `d` is valid, `FramesPerDirection = n`
is at least 1, `state.images` holds `NumberOfDirections * n` frames and that
number is below 2^31 (so that the `int32` arithmetic of lines 160-162 is
exact), a successful `exportGif` hands to `gif.EncodeAll` an animation of
exactly `n` frames and `n` delays whose `k`-th frame is the re-encoding of
`state.images[d*n + k]`; and `exportGif` is successful whenever the dialog
gives a path and no library call fails. -/
theorem exportGif_exports_selected_direction (world : World) (m : Int) (dcc : DCC)
    (state : widgetState)
    (hd : 0 ≤ state.controls.direction ∧ state.controls.direction < dcc.NumberOfDirections)
    (hn : 1 ≤ dcc.FramesPerDirection)
    (himg : (state.images.length : Int) = dcc.NumberOfDirections * dcc.FramesPerDirection)
    (hsz : dcc.NumberOfDirections * dcc.FramesPerDirection < 2 ^ 31) :
    ((exportGif world m dcc state).outcome = .returned none →
      ∃ path file outGif,
        (exportGif world m dcc state).events =
          [.openFile path, .encodeAll file outGif, .close file] ∧
        (outGif.Image.length : Int) = dcc.FramesPerDirection ∧
        (outGif.Delay.length : Int) = dcc.FramesPerDirection ∧
        ∀ k : Nat, (k : Int) < dcc.FramesPerDirection →
          ∃ img p,
            goIndex state.images (state.controls.direction * dcc.FramesPerDirection + k) =
              some img ∧
            reencode world img = .ok p ∧ outGif.Image[k]? = some p) ∧
    ((∃ path, world.Save = .ok path) →
      (∀ img ∈ state.images, ∃ p, reencode world img = .ok p) →
      (∀ path, ∃ file, world.OpenFile path = .ok file) →
      (∀ file outGif, world.EncodeAll file outGif = none) →
      (∀ file, world.Close file = none) →
      (exportGif world m dcc state).outcome = .returned none) :=
  ⟨exportGif_frames_of_success world m dcc state hd hn himg hsz,
   exportGif_success_of_benign world m dcc state hd hn himg hsz⟩

/-- Witness of `exportGif_exports_selected_direction`: the second direction of
a 2 by 3 animation, exported successfully. -/
theorem exportGif_exports_selected_direction_witness :
    (exportGif sampleWorld 1000 sampleDcc sampleState).outcome = .returned none ∧
    ∃ path file outGif,
      (exportGif sampleWorld 1000 sampleDcc sampleState).events =
        [.openFile path, .encodeAll file outGif, .close file] ∧
      (outGif.Image.length : Int) = sampleDcc.FramesPerDirection ∧
      (outGif.Delay.length : Int) = sampleDcc.FramesPerDirection ∧
      ∀ k : Nat, (k : Int) < sampleDcc.FramesPerDirection →
        ∃ img p,
          goIndex sampleState.images
              (sampleState.controls.direction * sampleDcc.FramesPerDirection + k) = some img ∧
          reencode sampleWorld img = .ok p ∧ outGif.Image[k]? = some p :=
  ⟨by decide,
   (exportGif_exports_selected_direction sampleWorld 1000 sampleDcc sampleState
      (by decide) (by decide) (by decide) (by decide)).1 (by decide)⟩

theorem take_one_replicate_succ {α : Type} (n : Nat) (a : α) :
    ((List.replicate (n + 1) a).drop 0).take 1 = [a] := by
  simp [List.replicate_succ]

/-- C1 fails as stated: with one direction of `n = 2^32 + 1` frames, all of them
decoded, `int32(FramesPerDirection)` is 1 and the successful export builds an
animation of one frame and one delay, not of `n`. -/
theorem exportGif_truncates_frame_count :
    (0 ≤ hugeState.controls.direction ∧
        hugeState.controls.direction < hugeDcc.NumberOfDirections) ∧
      1 ≤ hugeDcc.FramesPerDirection ∧
      (hugeState.images.length : Int) =
        hugeDcc.NumberOfDirections * hugeDcc.FramesPerDirection ∧
      hugeDcc.FramesPerDirection = 4294967297 ∧
      (exportGif sampleWorld 1000 hugeDcc hugeState).outcome = .returned none ∧
      (exportGif sampleWorld 1000 hugeDcc hugeState).events =
        [Event.openFile "out.gif",
         Event.encodeAll ⟨3⟩ { Image := [⟨10⟩], Delay := [0], LoopCount := 0 },
         Event.close ⟨3⟩] := by
  have himgs : hugeState.images = List.replicate 4294967297 ⟨10⟩ := rfl
  have hlen : (hugeState.images.length : Int) = 4294967297 := by
    rw [himgs, List.length_replicate]; rfl
  have hsl : goSlice hugeState.images
      (toInt32 (hugeState.controls.direction * toInt32 hugeDcc.FramesPerDirection))
      (toInt32 (toInt32 (hugeState.controls.direction * toInt32 hugeDcc.FramesPerDirection) +
        toInt32 hugeDcc.FramesPerDirection)) = some [⟨10⟩] := by
    have e1 : toInt32 hugeDcc.FramesPerDirection = 1 := by decide
    have e0 : hugeState.controls.direction = 0 := rfl
    have e2 : toInt32 (0 * 1) = 0 := by decide
    have e3 : toInt32 (0 + 1) = 1 := by decide
    rw [e1, e0, e2, e3, goSlice_eq _ (by decide) (by decide) (by rw [hlen]; decide), himgs]
    exact congrArg some (take_one_replicate_succ 4294967296 _)
  have hrun := exportGif_of_slice sampleWorld 1000 hugeDcc hugeState "out.gif" _ rfl hsl
  refine ⟨by decide, by decide, ?_, rfl, ?_, ?_⟩
  · rw [hlen]; decide
  · rw [hrun]; decide
  · rw [hrun]; decide


/-! ## The tick time -/

/-- C8, as amended: when `miliseconds` is such that a tick time of 1 stands for
one millisecond, the duration that the handler of the "Tick time" input passes
to the ticker reset is, for every entered `int32` value `t`, exactly `t`
milliseconds.  For `t > 0` it is positive and the ticker is reset to that
period; for `t <= 0` it is not positive and the reset panics: nothing keeps
the tick interval positive. -/
theorem tickTimeOnChange_period (m : Int) (state : widgetState)
    (hm : tickerResetDuration m 1 = 1000000) (ht : inInt32 state.tickTime) :
    tickerResetDuration m state.tickTime = state.tickTime * 1000000 ∧
      (0 < state.tickTime →
        0 < tickerResetDuration m state.tickTime ∧
        tickTimeOnChange m state =
          .returned { state with ticker := state.tickTime * 1000000 }) ∧
      (state.tickTime ≤ 0 →
        tickerResetDuration m state.tickTime ≤ 0 ∧
        tickTimeOnChange m state =
          .panicked (.nonPositiveInterval (state.tickTime * 1000000))) := by
  have hm1 := miliseconds_eq_thousand hm
  subst hm1
  have e := tickerResetDuration_thousand ht
  refine ⟨e, fun hpos => ⟨by rw [e]; omega, ?_⟩, fun hneg => ⟨by rw [e]; omega, ?_⟩⟩
  · unfold tickTimeOnChange
    simp only [e]
    rw [if_neg (by omega)]
  · unfold tickTimeOnChange
    simp only [e]
    rw [if_pos (by omega)]

/-- Witness of `tickTimeOnChange_period`: the tick time 300 with `miliseconds`
1000 resets the ticker to 300 ms. -/
theorem tickTimeOnChange_period_witness :
    tickerResetDuration 1000 sampleState.tickTime = sampleState.tickTime * 1000000 ∧
      0 < tickerResetDuration 1000 sampleState.tickTime ∧
      tickTimeOnChange 1000 sampleState =
        .returned { sampleState with ticker := sampleState.tickTime * 1000000 } :=
  have h := tickTimeOnChange_period 1000 sampleState (by decide) (by decide)
  ⟨h.1, h.2.1 (by decide)⟩

/-- C8 fails as stated: the entered tick times 0 and -5 are `int32` values; for
0 the duration `time.Second * time.Duration(0) / miliseconds` is 0 whatever the
value of `miliseconds`, for -5 and `miliseconds` 1000 it is -5 ms; neither is
positive, and the handler panics in the ticker reset on both. -/
theorem tickTime_zero_not_positive :
    inInt32 zeroTickState.tickTime ∧ inInt32 negativeTickState.tickTime ∧
      (∀ m : Int, tickerResetDuration m zeroTickState.tickTime = 0) ∧
      tickerResetDuration 1000 negativeTickState.tickTime = -5000000 ∧
      tickTimeOnChange 1000 zeroTickState = .panicked (.nonPositiveInterval 0) ∧
      tickTimeOnChange 1000 negativeTickState =
        .panicked (.nonPositiveInterval (-5000000)) := by
  refine ⟨by decide, by decide, fun m => ?_, by decide, by decide, by decide⟩
  have h0 : zeroTickState.tickTime = 0 := rfl
  have h1 : toInt64 (timeSecond * toInt64 0) = 0 := by decide
  have h2 : toInt64 0 = 0 := by decide
  unfold tickerResetDuration
  rw [h0, h1, Int.zero_tdiv, h2]

/-- C2: with `miliseconds` such that a tick time of 1 stands for one
millisecond, exporting the three frames of the selected direction at tick time
300 writes the delays 0, 0, 0, where the claim has 30, 30, 30. -/
theorem exportGif_delay_at_300 (m : Int) (hm : tickerResetDuration m 1 = 1000000) :
    (exportGif sampleWorld m sampleDcc sampleState).events =
      [Event.openFile "out.gif",
       Event.encodeAll ⟨3⟩ { Image := [⟨13⟩, ⟨14⟩, ⟨15⟩], Delay := [0, 0, 0], LoopCount := 0 },
       Event.close ⟨3⟩] := by
  have hm1 := miliseconds_eq_thousand hm
  subst hm1
  decide

/-- Witness of `exportGif_delay_at_300`: `miliseconds` is 1000. -/
theorem exportGif_delay_at_300_witness :
    (exportGif sampleWorld 1000 sampleDcc sampleState).events =
      [Event.openFile "out.gif",
       Event.encodeAll ⟨3⟩ { Image := [⟨13⟩, ⟨14⟩, ⟨15⟩], Delay := [0, 0, 0], LoopCount := 0 },
       Event.close ⟨3⟩] :=
  exportGif_delay_at_300 1000 (by decide)

/-! ## `Build` -/

/-- C9: with valid direction 1 and frame 0 of a 2 by 3 animation, `Build` tests
the entry 0 of the textures and reads the entry 3.  While the textures are
still loading it shows a nil texture at the size of the box, and with a
texture slice of length 1 its read is out of range. -/
theorem Build_reads_unchecked_texture :
    Build sampleDcc loadingState = .returned { texture := none, width := 10, height := 20 } ∧
      Build sampleDcc shortTexturesState =
        .panicked (.indexOutOfRange "viewerState.textures" 3 1) := by
  constructor <;> decide

/-- C10: for the stored scale -1 the factor is 4294967295 and not 1, and `Build`
sizes the 10 by 20 box of the direction to 4294967286 by 4294967276. -/
theorem Build_negative_scale :
    imageScale (-1) = 4294967295 ∧
      Build sampleDcc negativeScaleState =
        .returned { texture := some ⟨23⟩, width := 4294967286, height := 4294967276 } := by
  constructor <;> decide

/-! ## The ways `exportGif` ends -/

theorem exportGif_of_save_error (world : World) (m : Int) (dcc : DCC) (state : widgetState)
    (inner : GoError) (hs : world.Save = .error inner) :
    exportGif world m dcc state =
      { outcome := .returned (some (.wrapped "error reading filepath: " inner))
        state := state, events := [] } := by
  unfold exportGif
  simp only [hs]

theorem exportGif_of_slice_none (world : World) (m : Int) (dcc : DCC) (state : widgetState)
    (filePath : String) (hs : world.Save = .ok filePath)
    (hsl : goSlice state.images
      (toInt32 (state.controls.direction * toInt32 dcc.FramesPerDirection))
      (toInt32 (toInt32 (state.controls.direction * toInt32 dcc.FramesPerDirection) +
        toInt32 dcc.FramesPerDirection)) = none) :
    (exportGif world m dcc state).outcome =
        .panicked (.sliceBoundsOutOfRange "state.images"
          (toInt32 (state.controls.direction * toInt32 dcc.FramesPerDirection))
          (toInt32 (toInt32 (state.controls.direction * toInt32 dcc.FramesPerDirection) +
            toInt32 dcc.FramesPerDirection)) state.images.length) ∧
      (exportGif world m dcc state).events = [] := by
  unfold exportGif
  simp only [hs, hsl, and_self]

theorem mem_of_goSlice {α : Type} {xs ys : List α} {lo hi : Int}
    (h : goSlice xs lo hi = some ys) {x : α} (hx : x ∈ ys) : x ∈ xs := by
  unfold goSlice at h
  split at h
  · have e := Option.some.inj h
    subst e
    exact List.mem_of_mem_drop (List.mem_of_mem_take hx)
  · cases h

theorem reencode_error (world : World) (img : Image) (e : GoError)
    (h : reencode world img = .error e) :
    (∃ inner, world.Encode img = .error inner ∧ e = .wrapped "error encoding gif: " inner) ∨
      (∃ g inner, world.Encode img = .ok g ∧ world.Decode g = .error inner ∧
        e = .wrapped "error decoding gif image: " inner) := by
  unfold reencode at h
  cases hE : world.Encode img with
  | error inner =>
    simp only [hE] at h
    exact Or.inl ⟨inner, rfl, (Except.error.inj h).symm⟩
  | ok g =>
    simp only [hE] at h
    cases hD : world.Decode g with
    | error inner =>
      simp only [hD] at h
      exact Or.inr ⟨g, inner, rfl, hD, (Except.error.inj h).symm⟩
    | ok p => simp [hD] at h

/-! ## The state and the save dialog -/

/-- C7: whatever the world answers and however the call ends (it returns nil or
an error, panics, or exits through `log.Fatalf`), `exportGif` leaves the whole
widget state (direction, frame, scale, repeat flag, play mode, tick time,
`isPlaying`, images, textures, ticker) as it was before the call. -/
theorem exportGif_state_unchanged (world : World) (m : Int) (dcc : DCC) (state : widgetState) :
    (exportGif world m dcc state).state = state := by
  unfold exportGif
  repeat' first | rfl | split | dsimp only

/-- C3, as amended: when the save dialog reports that the user cancelled,
`exportGif` opens no file and writes nothing, and it returns the error
"error reading filepath: Cancelled", for which the click handler of the
"Export GIF" button shows the error message. -/
theorem exportGif_cancel_is_reported (world : World) (m : Int) (dcc : DCC) (state : widgetState)
    (hcancel : world.Save = .error ErrCancelled) :
    (exportGif world m dcc state).events = [] ∧
      (exportGif world m dcc state).outcome =
        .returned (some (.wrapped "error reading filepath: " ErrCancelled)) ∧
      (exportGifOnClick world m dcc state).events =
        [.errorMessage "error while creating gif error reading filepath: Cancelled"] := by
  have h : exportGif world m dcc state =
      { outcome := .returned (some (.wrapped "error reading filepath: " ErrCancelled))
        state := state, events := [] } := by
    unfold exportGif
    simp only [hcancel]
  refine ⟨by rw [h], by rw [h], ?_⟩
  unfold exportGifOnClick
  simp only [h]
  decide

/-- Witness of `exportGif_cancel_is_reported`: the world in which the user
cancels the dialog. -/
theorem exportGif_cancel_is_reported_witness :
    (exportGif cancelWorld 1000 sampleDcc sampleState).events = [] ∧
      (exportGif cancelWorld 1000 sampleDcc sampleState).outcome =
        .returned (some (.wrapped "error reading filepath: " ErrCancelled)) ∧
      (exportGifOnClick cancelWorld 1000 sampleDcc sampleState).events =
        [.errorMessage "error while creating gif error reading filepath: Cancelled"] :=
  exportGif_cancel_is_reported cancelWorld 1000 sampleDcc sampleState rfl

/-- C3 fails as stated: the dialog reports the cancellation, `exportGif` returns
an error and not nil, and the click handler shows an error message. -/
theorem exportGif_cancel_returns_error :
    cancelWorld.Save = .error (.leaf "Cancelled") ∧
      (exportGif cancelWorld 1000 sampleDcc loadingState).outcome =
        .returned (some (.wrapped "error reading filepath: " (.leaf "Cancelled"))) ∧
      (exportGifOnClick cancelWorld 1000 sampleDcc loadingState).events =
        [.errorMessage "error while creating gif error reading filepath: Cancelled"] :=
  ⟨rfl, by decide, by decide⟩

/-! ## The stored direction -/

theorem exportGif_in_range_no_panic (world : World) (m : Int) (dcc : DCC) (state : widgetState)
    (hd : 0 ≤ state.controls.direction ∧ state.controls.direction < dcc.NumberOfDirections)
    (hn : 1 ≤ dcc.FramesPerDirection)
    (himg : (state.images.length : Int) = dcc.NumberOfDirections * dcc.FramesPerDirection)
    (hsz : dcc.NumberOfDirections * dcc.FramesPerDirection < 2 ^ 31) (p : Panic) :
    (exportGif world m dcc state).outcome ≠ .panicked p := by
  obtain ⟨r1, r2, r3, r4, r5⟩ := selected_range hd hn hsz
  generalize hdn : state.controls.direction * dcc.FramesPerDirection = a at *
  cases hs : world.Save with
  | error inner =>
    rw [exportGif_of_save_error world m dcc state inner hs]
    exact fun h => Outcome.noConfusion h
  | ok filePath =>
    have hsl := goSlice_eq state.images r4 (show a ≤ a + dcc.FramesPerDirection by omega)
      (by rw [himg]; exact r5)
    rw [exportGif_of_slice world m dcc state filePath _ hs (by rw [r1, hdn, r2, r3]; exact hsl)]
    repeat' split
    all_goals exact fun h => Outcome.noConfusion h

theorem Build_directions_panic_iff (dcc : DCC) (state : widgetState) :
    Build dcc state =
        .panicked (.indexOutOfRange "p.dcc.Directions" state.controls.direction
          dcc.Directions.length) ↔
      ¬ (0 ≤ state.controls.direction ∧
        state.controls.direction < (dcc.Directions.length : Int)) := by
  unfold Build
  cases hg : goIndex dcc.Directions state.controls.direction with
  | none =>
    simp only [hg, true_iff]
    intro ⟨h1, h2⟩
    unfold goIndex at hg
    rw [if_pos h1] at hg
    have := List.getElem?_eq_none_iff.mp hg
    omega
  | some dir =>
    have hin : 0 ≤ state.controls.direction ∧
        state.controls.direction < (dcc.Directions.length : Int) := by
      unfold goIndex at hg
      by_cases h1 : 0 ≤ state.controls.direction
      · rw [if_pos h1] at hg
        have := (List.getElem?_eq_some_iff.mp hg).1
        omega
      · rw [if_neg h1] at hg; cases hg
    simp only [hg, hin, and_self, not_true_eq_false, iff_false]
    repeat' split
    all_goals first
      | exact fun h => Outcome.noConfusion h
      | (intro h; exact absurd (Panic.indexOutOfRange.inj (Outcome.panicked.inj h)).1 (by decide))

/-- C4, as amended: the stored direction is used as it is, never clamped.  When
it is a valid direction (and the direction list holds `NumberOfDirections`
entries), the access of `Build` to the direction list is in bounds, and
`exportGif` slices the images in bounds (no panic) when the images hold
`NumberOfDirections * FramesPerDirection` frames, fewer than 2^31; when it is
not a valid direction, `Build` panics with an index out of range on the
direction list. -/
theorem direction_not_clamped (world : World) (m : Int) (dcc : DCC) (state : widgetState)
    (hdirs : (dcc.Directions.length : Int) = dcc.NumberOfDirections) :
    ((0 ≤ state.controls.direction ∧ state.controls.direction < dcc.NumberOfDirections) →
      Build dcc state ≠
        .panicked (.indexOutOfRange "p.dcc.Directions" state.controls.direction
          dcc.Directions.length) ∧
      (1 ≤ dcc.FramesPerDirection →
        (state.images.length : Int) = dcc.NumberOfDirections * dcc.FramesPerDirection →
        dcc.NumberOfDirections * dcc.FramesPerDirection < 2 ^ 31 →
        ∀ p, (exportGif world m dcc state).outcome ≠ .panicked p)) ∧
    (¬ (0 ≤ state.controls.direction ∧ state.controls.direction < dcc.NumberOfDirections) →
      Build dcc state =
        .panicked (.indexOutOfRange "p.dcc.Directions" state.controls.direction
          dcc.Directions.length)) := by
  have hb := Build_directions_panic_iff dcc state
  rw [hdirs] at hb
  refine ⟨fun hd => ⟨fun h => (hb.mp h) hd, fun hn himg hsz p => ?_⟩, fun hd => hb.mpr hd⟩
  exact exportGif_in_range_no_panic world m dcc state hd hn himg hsz p

/-- Witness of `direction_not_clamped`: the second of two directions. -/
theorem direction_not_clamped_witness :
    Build sampleDcc sampleState ≠
        .panicked (.indexOutOfRange "p.dcc.Directions" sampleState.controls.direction
          sampleDcc.Directions.length) ∧
      ∀ p, (exportGif sampleWorld 1000 sampleDcc sampleState).outcome ≠ .panicked p :=
  have h := (direction_not_clamped sampleWorld 1000 sampleDcc sampleState (by decide)).1
    (by decide)
  ⟨h.1, h.2 (by decide) (by decide) (by decide)⟩

/-- C4 fails as stated: with two directions and the stored direction 2, `Build`
indexes the direction list at 2 and `exportGif` slices the six images from 6
to 9; both panic, nothing is clamped. -/
theorem out_of_range_direction_panics :
    Build sampleDcc badDirectionState = .panicked (.indexOutOfRange "p.dcc.Directions" 2 2) ∧
      (exportGif sampleWorld 1000 sampleDcc badDirectionState).outcome =
        .panicked (.sliceBoundsOutOfRange "state.images" 6 9 6) := by
  constructor <;> decide

/-! ## Failures of the export -/

/-- The message of `log.Fatalf("Error closing file %s: %v", filePath, err)`. -/
theorem exportGif_close_failure (world : World) (m : Int) (dcc : DCC) (state : widgetState)
    (file : File) (err : GoError) (hev : Event.close file ∈ (exportGif world m dcc state).events)
    (hc : world.Close file = some err) :
    ∃ filePath, world.Save = .ok filePath ∧
      (exportGif world m dcc state).outcome =
        .fatal ("Error closing file " ++ filePath ++ ": " ++ err.Error) := by
  cases hs : world.Save with
  | error inner =>
    rw [exportGif_of_save_error world m dcc state inner hs] at hev
    simp at hev
  | ok filePath =>
    refine ⟨filePath, rfl, ?_⟩
    cases hsl : goSlice state.images
      (toInt32 (state.controls.direction * toInt32 dcc.FramesPerDirection))
      (toInt32 (toInt32 (state.controls.direction * toInt32 dcc.FramesPerDirection) +
        toInt32 dcc.FramesPerDirection)) with
    | none =>
      rw [(exportGif_of_slice_none world m dcc state filePath hs hsl).2] at hev
      simp at hev
    | some images =>
      rw [exportGif_of_slice world m dcc state filePath images hs hsl] at hev ⊢
      split at hev
      · simp at hev
      · split at hev
        · simp at hev
        · rename_i file2 hopen
          have hf : file = file2 := by
            split at hev
            · simpa using hev
            · split at hev <;> simpa using hev
          subst hf
          simp only [hopen, hc]

theorem exportFrames_fails (world : World) (m t : Int) (imgs : List Image) (acc : GIF)
    (h : ∃ img ∈ imgs, ∃ e, reencode world img = .error e) :
    ∃ e, exportFrames world m t imgs acc = .error e ∧
      ∃ img ∈ imgs, reencode world img = .error e := by
  cases hx : exportFrames world m t imgs acc with
  | error e => exact ⟨e, rfl, exportFrames_error world m t imgs acc e hx⟩
  | ok out =>
    exfalso
    obtain ⟨-, -, ps, -, hall⟩ := exportFrames_ok world m t imgs acc out hx
    obtain ⟨img, hi, e, he⟩ := h
    obtain ⟨i, hlt, hget⟩ := List.getElem_of_mem hi
    have hlt2 : i < ps.length := hall.length_eq ▸ hlt
    have hp := hall.get hlt hlt2
    have hg : imgs.get ⟨i, hlt⟩ = img := hget
    rw [hg] at hp
    rw [hp] at he
    cases he

/-- The click handler shows every error that `exportGif` returns. -/
theorem exportGifOnClick_shows_error (world : World) (m : Int) (dcc : DCC)
    (state : widgetState) (e : GoError)
    (h : (exportGif world m dcc state).outcome = .returned (some e)) :
    (exportGifOnClick world m dcc state).outcome = .returned () ∧
      (exportGifOnClick world m dcc state).events =
        (exportGif world m dcc state).events ++
          [.errorMessage ("error while creating gif " ++ e.Error)] := by
  unfold exportGifOnClick
  simp only [h, and_self]

/-- The click handler does not outlive the `log.Fatalf` of `exportGif`. -/
theorem exportGifOnClick_fatal (world : World) (m : Int) (dcc : DCC)
    (state : widgetState) (msg : String)
    (h : (exportGif world m dcc state).outcome = .fatal msg) :
    (exportGifOnClick world m dcc state).outcome = .fatal msg ∧
      (exportGifOnClick world m dcc state).events = (exportGif world m dcc state).events := by
  unfold exportGifOnClick
  simp only [h, and_self]

theorem exportGif_returned_error (world : World) (m : Int) (dcc : DCC) (state : widgetState)
    (e : GoError) (h : (exportGif world m dcc state).outcome = .returned (some e)) :
    (∃ inner, world.Save = .error inner ∧ e = .wrapped "error reading filepath: " inner) ∨
    (∃ img inner, img ∈ state.images ∧ world.Encode img = .error inner ∧
      e = .wrapped "error encoding gif: " inner) ∨
    (∃ img g inner, img ∈ state.images ∧ world.Encode img = .ok g ∧
      world.Decode g = .error inner ∧ e = .wrapped "error decoding gif image: " inner) ∨
    (∃ filePath inner, world.Save = .ok filePath ∧
      world.OpenFile (world.Clean filePath) = .error inner ∧
      e = .wrapped "error creating a new file: " inner) ∨
    (∃ file outGif inner, Event.encodeAll file outGif ∈ (exportGif world m dcc state).events ∧
      world.EncodeAll file outGif = some inner ∧ world.Close file = none ∧
      e = .wrapped "error saving to output gif: " inner) := by
  cases hs : world.Save with
  | error inner =>
    rw [exportGif_of_save_error world m dcc state inner hs] at h
    exact Or.inl ⟨inner, rfl, (Option.some.inj (Outcome.returned.inj h)).symm⟩
  | ok filePath =>
    right
    cases hsl : goSlice state.images
      (toInt32 (state.controls.direction * toInt32 dcc.FramesPerDirection))
      (toInt32 (toInt32 (state.controls.direction * toInt32 dcc.FramesPerDirection) +
        toInt32 dcc.FramesPerDirection)) with
    | none =>
      rw [(exportGif_of_slice_none world m dcc state filePath hs hsl).1] at h
      cases h
    | some images =>
      rw [exportGif_of_slice world m dcc state filePath images hs hsl] at h ⊢
      cases hf : exportFrames world m state.tickTime images {} with
      | error err =>
        simp only [hf] at h
        have he : err = e := Option.some.inj (Outcome.returned.inj h)
        subst he
        obtain ⟨img, hi, hr⟩ := exportFrames_error world m _ _ _ _ hf
        have hmem := mem_of_goSlice hsl hi
        rcases reencode_error world img err hr with ⟨inner, h1, h2⟩ | ⟨g, inner, h1, h2, h3⟩
        · exact Or.inl ⟨img, inner, hmem, h1, h2⟩
        · exact Or.inr (Or.inl ⟨img, g, inner, hmem, h1, h2, h3⟩)
      | ok outGif =>
        simp only [hf] at h ⊢
        right; right
        cases ho : world.OpenFile (world.Clean filePath) with
        | error inner =>
          simp only [ho] at h
          exact Or.inl ⟨filePath, inner, rfl, ho,
            (Option.some.inj (Outcome.returned.inj h)).symm⟩
        | ok file =>
          simp only [ho] at h ⊢
          right
          cases hc : world.Close file with
          | some err => simp only [hc] at h; cases h
          | none =>
            simp only [hc] at h ⊢
            cases hw : world.EncodeAll file outGif with
            | none => simp only [hw] at h; cases (Outcome.returned.inj h)
            | some inner =>
              simp only [hw] at h ⊢
              exact ⟨file, outGif, inner, by simp, hw, hc,
                (Option.some.inj (Outcome.returned.inj h)).symm⟩

/-- C6, as amended: an error returned by `exportGif` names its stage by its
context: "error reading filepath: " for the save dialog (a cancellation
included), "error encoding gif: " or "error decoding gif image: " for the
re-encoding of a frame, "error creating a new file: " for the opening of the
file, "error saving to output gif: " for the writing when the close succeeds;
the five contexts differ from one another; and a failure to close the file
returns nothing to the caller. -/
theorem exportGif_error_names_stage (world : World) (m : Int) (dcc : DCC)
    (state : widgetState) :
    (∀ e, (exportGif world m dcc state).outcome = .returned (some e) →
      (∃ inner, world.Save = .error inner ∧ e = .wrapped "error reading filepath: " inner) ∨
      (∃ img inner, img ∈ state.images ∧ world.Encode img = .error inner ∧
        e = .wrapped "error encoding gif: " inner) ∨
      (∃ img g inner, img ∈ state.images ∧ world.Encode img = .ok g ∧
        world.Decode g = .error inner ∧ e = .wrapped "error decoding gif image: " inner) ∨
      (∃ filePath inner, world.Save = .ok filePath ∧
        world.OpenFile (world.Clean filePath) = .error inner ∧
        e = .wrapped "error creating a new file: " inner) ∨
      (∃ file outGif inner,
        Event.encodeAll file outGif ∈ (exportGif world m dcc state).events ∧
        world.EncodeAll file outGif = some inner ∧ world.Close file = none ∧
        e = .wrapped "error saving to output gif: " inner)) ∧
    (∀ file err, Event.close file ∈ (exportGif world m dcc state).events →
      world.Close file = some err →
      ∀ value, (exportGif world m dcc state).outcome ≠ .returned value) ∧
    ["error reading filepath: ", "error encoding gif: ", "error decoding gif image: ",
      "error creating a new file: ", "error saving to output gif: "].Nodup := by
  refine ⟨exportGif_returned_error world m dcc state, ?_, by decide⟩
  intro file err hev hc value h
  obtain ⟨filePath, -, hfatal⟩ := exportGif_close_failure world m dcc state file err hev hc
  rw [hfatal] at h
  cases h

/-- Witness of `exportGif_error_names_stage`: a failed write followed by a
successful close returns an error, and that error carries one of the five
contexts together with the failure of its stage. -/
theorem exportGif_error_names_stage_witness :
    (∃ inner, writeFailsWorld.Save = .error inner ∧
      GoError.wrapped "error saving to output gif: " (.leaf "no space left on device") =
        .wrapped "error reading filepath: " inner) ∨
    (∃ img inner, img ∈ sampleState.images ∧ writeFailsWorld.Encode img = .error inner ∧
      GoError.wrapped "error saving to output gif: " (.leaf "no space left on device") =
        .wrapped "error encoding gif: " inner) ∨
    (∃ img g inner, img ∈ sampleState.images ∧ writeFailsWorld.Encode img = .ok g ∧
      writeFailsWorld.Decode g = .error inner ∧
      GoError.wrapped "error saving to output gif: " (.leaf "no space left on device") =
        .wrapped "error decoding gif image: " inner) ∨
    (∃ filePath inner, writeFailsWorld.Save = .ok filePath ∧
      writeFailsWorld.OpenFile (writeFailsWorld.Clean filePath) = .error inner ∧
      GoError.wrapped "error saving to output gif: " (.leaf "no space left on device") =
        .wrapped "error creating a new file: " inner) ∨
    (∃ file outGif inner,
      Event.encodeAll file outGif ∈
        (exportGif writeFailsWorld 1000 sampleDcc sampleState).events ∧
      writeFailsWorld.EncodeAll file outGif = some inner ∧ writeFailsWorld.Close file = none ∧
      GoError.wrapped "error saving to output gif: " (.leaf "no space left on device") =
        .wrapped "error saving to output gif: " inner) :=
  (exportGif_error_names_stage writeFailsWorld 1000 sampleDcc sampleState).1 _ (by decide)

/-- C6 fails as stated: when the writing fails and then the close fails,
`exportGif` returns no error, it ends in `log.Fatalf`. -/
theorem exportGif_close_failure_not_returned :
    (exportGif writeAndCloseFailWorld 1000 sampleDcc sampleState).outcome =
      .fatal "Error closing file out.gif: input/output error" := by
  decide

/-- C5, as amended: the click handler shows in the error dialog every error
that `exportGif` returns; once the dialog gave a path and the frames are
sliced, a frame that fails to re-encode, a file that fails to open, and a
failed write followed by a successful close each make `exportGif` return an
error; a failure to close the file is not returned: `log.Fatalf` ends the
program and no error dialog is shown. -/
theorem exportGif_failures_reported (world : World) (m : Int) (dcc : DCC)
    (state : widgetState) :
    (∀ e, (exportGif world m dcc state).outcome = .returned (some e) →
      (exportGifOnClick world m dcc state).outcome = .returned () ∧
      (exportGifOnClick world m dcc state).events =
        (exportGif world m dcc state).events ++
          [.errorMessage ("error while creating gif " ++ e.Error)]) ∧
    (∀ filePath images, world.Save = .ok filePath →
      goSlice state.images
        (toInt32 (state.controls.direction * toInt32 dcc.FramesPerDirection))
        (toInt32 (toInt32 (state.controls.direction * toInt32 dcc.FramesPerDirection) +
          toInt32 dcc.FramesPerDirection)) = some images →
      ((∃ img ∈ images, ∃ e, reencode world img = .error e) →
        ∃ e, (exportGif world m dcc state).outcome = .returned (some e) ∧
          ∃ img ∈ images, reencode world img = .error e) ∧
      (∀ outGif, exportFrames world m state.tickTime images {} = .ok outGif →
        (∀ inner, world.OpenFile (world.Clean filePath) = .error inner →
          (exportGif world m dcc state).outcome =
            .returned (some (.wrapped "error creating a new file: " inner))) ∧
        (∀ file, world.OpenFile (world.Clean filePath) = .ok file →
          (∀ inner, world.EncodeAll file outGif = some inner → world.Close file = none →
            (exportGif world m dcc state).outcome =
              .returned (some (.wrapped "error saving to output gif: " inner))) ∧
          (∀ err, world.Close file = some err →
            (exportGifOnClick world m dcc state).outcome =
              .fatal ("Error closing file " ++ filePath ++ ": " ++ err.Error) ∧
            ∀ msg, Event.errorMessage msg ∉ (exportGifOnClick world m dcc state).events)))) := by
  refine ⟨exportGifOnClick_shows_error world m dcc state, ?_⟩
  intro filePath images hs hsl
  have hrun := exportGif_of_slice world m dcc state filePath images hs hsl
  refine ⟨fun hfail => ?_, fun outGif hf => ⟨fun inner ho => ?_, fun file ho =>
    ⟨fun inner hw hc => ?_, fun err hc => ?_⟩⟩⟩
  · obtain ⟨e, he, hi⟩ := exportFrames_fails world m state.tickTime images {} hfail
    refine ⟨e, ?_, hi⟩
    rw [hrun]
    simp only [he]
  · rw [hrun]
    simp only [hf, ho]
  · rw [hrun]
    simp only [hf, ho, hc, hw]
  · have hfatal : (exportGif world m dcc state).outcome =
        .fatal ("Error closing file " ++ filePath ++ ": " ++ err.Error) := by
      rw [hrun]
      simp only [hf, ho, hc]
    have hevents : (exportGif world m dcc state).events =
        [.openFile (world.Clean filePath), .encodeAll file outGif, .close file] := by
      rw [hrun]
      simp only [hf, ho, hc]
    obtain ⟨h1, h2⟩ := exportGifOnClick_fatal world m dcc state _ hfatal
    refine ⟨h1, fun msg hmem => ?_⟩
    rw [h2, hevents] at hmem
    simp at hmem

/-- Witness of `exportGif_failures_reported`: a failed write, followed by a
successful close, is returned and shown in the error dialog. -/
theorem exportGif_failures_reported_witness :
    (exportGifOnClick writeFailsWorld 1000 sampleDcc sampleState).outcome = .returned () ∧
      (exportGifOnClick writeFailsWorld 1000 sampleDcc sampleState).events =
        (exportGif writeFailsWorld 1000 sampleDcc sampleState).events ++
          [.errorMessage ("error while creating gif " ++
            (GoError.wrapped "error saving to output gif: "
              (.leaf "no space left on device")).Error)] :=
  (exportGif_failures_reported writeFailsWorld 1000 sampleDcc sampleState).1 _ (by decide)

/-- C5 fails as stated: when the close of the output file fails, the click
handler ends in `log.Fatalf`, which exits the program; no error dialog is
shown. -/
theorem exportGifOnClick_close_failure_is_fatal :
    (exportGifOnClick closeFailsWorld 1000 sampleDcc sampleState).outcome =
        .fatal "Error closing file out.gif: input/output error" ∧
      (exportGifOnClick closeFailsWorld 1000 sampleDcc sampleState).events =
        [Event.openFile "out.gif",
         Event.encodeAll ⟨3⟩ { Image := [⟨13⟩, ⟨14⟩, ⟨15⟩], Delay := [0, 0, 0], LoopCount := 0 },
         Event.close ⟨3⟩] := by
  constructor <;> decide

end DccWidget
